import Mathlib

/-!
Verification of the tempchk sensor discovery and value-normalization engine.

The Go source is shallowly embedded: the filesystem visible to one run is
a pure value (per-device label file and `temp<i>_input` file contents, plus
the optional `/proc/cpuinfo` content), and each Go function becomes a Lean
function over that value.  `none` models an unreadable file, `some s` a
readable file with content `s`.  Go's `int` is modelled as `Int` with the
64-bit bound enforced where the source enforces it (`strconv.Atoi`), and
Go's truncating integer division is `Int.tdiv`.
-/

namespace Tempchk

/-- Path constant from the source: `hardwareMonitorDirectory = "/sys/class/hwmon/"`. -/
def hardwareMonitorDirectory : String := "/sys/class/hwmon/"

/-- Path constant from the source: `cpuinfoDirectory = "/proc/cpuinfo"`. -/
def cpuinfoDirectory : String := "/proc/cpuinfo"

/-- Constant from the source: `hardwareNameFile = "name"`. -/
def hardwareNameFile : String := "name"

/-- Constant from the source: `tempPre` models the Go global `tempPrefix = "temp"`. -/
def tempPre : String := "temp"

/-- Constant from the source: `inputSuffix = "_input"`. -/
def inputSuffix : String := "_input"

/-- Characters removed by `strings.Trim(s, " \n")`: space and newline. -/
def trimCutset (c : Char) : Bool := c == ' ' || c == '\n'

/-- Embedding of Go `strings.Trim(s, " \n")`: remove leading and trailing
characters belonging to the cutset. -/
def goTrim (s : String) : String :=
  String.mk (((s.data.dropWhile trimCutset).reverse.dropWhile trimCutset).reverse)

/-- Largest signed 64-bit integer, the bound enforced by `strconv.Atoi` on a
64-bit platform. -/
def int64Max : Int := 9223372036854775807

/-- Smallest signed 64-bit integer. -/
def int64Min : Int := -9223372036854775808

/-- Digit-string to number: `some` of the base-10 value when the character list
is non-empty and all characters are decimal digits, else `none`. -/
def parseDigits (cs : List Char) : Option Nat :=
  if cs.isEmpty then none
  else if cs.all Char.isDigit then
    some (cs.foldl (fun n c => n * 10 + (c.toNat - 48)) 0)
  else none

/-- Embedding of Go `strconv.Atoi`: an optional single leading sign followed by
one-or-more decimal digits; the value must fit a signed 64-bit integer,
otherwise Go reports `ErrRange` (modelled as `none`, since every caller in the
source only distinguishes error from success). -/
def goAtoi (s : String) : Option Int :=
  let signed : Int × List Char :=
    match s.data with
    | '+' :: t => (1, t)
    | '-' :: t => (-1, t)
    | t => (1, t)
  match parseDigits signed.2 with
  | none => none
  | some n =>
    let v : Int := signed.1 * n
    if v < int64Min ∨ int64Max < v then none else some v

/-- Embedding of Go `strings.Contains(hay, needle)` on character lists:
`needle` occurs as a prefix at some position of `hay`. -/
def containsSub (hay needle : List Char) : Bool :=
  match hay with
  | [] => needle.isEmpty
  | _ :: t => needle.isPrefixOf hay || containsSub t needle

/-- Embedding of the padding loop
`for len(s) < target { s += " " }` used by `main`. -/
def goPad (s : String) (target : Nat) : String :=
  s ++ String.mk (List.replicate (target - s.length) ' ')

/-- The `Sensor` struct from `sensor.go`. -/
structure Sensor where
  name : String
  path : String
  category : String
  intData : Int
  number : Nat
  count : Nat
deriving DecidableEq

/-- One hardware-monitor device directory as one run of the program sees it:
its directory name, the content of its `name` file (`none` when unreadable),
and the contents of its `temp<i>_input` files — position `i - 1` of `inputs`
holds the content of index `i`; indices beyond the list are missing files. -/
structure Device where
  dirName : String
  label : Option String
  inputs : List (Option String)
deriving DecidableEq

/-- Whether probing an input file keeps the discovery loop going:
readable (`err == nil`) and non-empty (`len(rawData) >= 1`). -/
def readableNonEmpty : Option String → Bool
  | none => false
  | some s => decide (1 ≤ s.length)

/-- The discovery probe of `GetSensorData`: starting at index 1, count
consecutive indices whose input file is readable and non-empty; the first
missing-or-empty file stops the count (`count--; break` in the source). -/
def probeCount : List (Option String) → Nat
  | [] => 0
  | f :: rest => if readableNonEmpty f then probeCount rest + 1 else 0

/-- The input-file path assembled by `GetSensorData`. -/
def mkPath (hwmon : String) (i : Nat) : String :=
  hardwareMonitorDirectory ++ hwmon ++ "/" ++ tempPre ++ toString i ++ inputSuffix

/-- The read pass of `GetSensorData` (`for i := 1; i <= count; i++`), with
`remaining = count + 1 - i` iterations left.  A missing-or-empty file breaks
the loop (as in the source); a non-parsing or non-positive value skips the
index with `continue`. -/
def readLoop (name hwmon : String) (files : List (Option String)) (count : Nat) :
    Nat → Nat → List Sensor
  | 0, _ => []
  | remaining + 1, i =>
    match files.getD (i - 1) none with
    | none => []
    | some s =>
      if s.length < 1 then []
      else
        match goAtoi (goTrim s) with
        | none => readLoop name hwmon files count remaining (i + 1)
        | some v =>
          if v < 1 then readLoop name hwmon files count remaining (i + 1)
          else { name := name, path := mkPath hwmon i, category := tempPre,
                 intData := v, number := i, count := count } ::
               readLoop name hwmon files count remaining (i + 1)

/-- Embedding of `GetSensorData` (functions.go): validate inputs, probe the
sensor count, read every in-range index, and fail with an explicit error when
no valid sensor was produced.  The Go pair `([]Sensor, error)` becomes
`List Sensor × Option String`. -/
def GetSensorData (name hwmon : String) (files : List (Option String)) :
    List Sensor × Option String :=
  if name = "" ∨ hwmon = "" then ([], some "GetSensorData(): invalid input")
  else
    let count := probeCount files
    let sensors := readLoop name hwmon files count count 1
    if sensors = [] then (sensors, some "GetSensorData(): no valid sensors")
    else (sensors, none)

/-- The process-wide globals mutated by `SetGlobalSensorFlags`. -/
structure GlobalState where
  digitalAmdPowerModuleInUse : Bool
  maxEntryLength : Nat
deriving DecidableEq

/-- The initial values of the globals (`= false`, `= 0` in the source). -/
def initialState : GlobalState := ⟨false, 0⟩

/-- One iteration of the device loop of `SetGlobalSensorFlags`: skip devices
whose `name` file is unreadable or empty; otherwise trim the label, track the
longest label length, and set the flag when the label equals
`"fam15h_power"`. -/
def deviceStep (st : GlobalState) (d : Device) : GlobalState :=
  match d.label with
  | none => st
  | some content =>
    if content.length < 1 then st
    else
      let trimmed := goTrim content
      let st1 : GlobalState :=
        { st with maxEntryLength :=
            if trimmed.length > st.maxEntryLength then trimmed.length
            else st.maxEntryLength }
      if trimmed = "fam15h_power" then
        { st1 with digitalAmdPowerModuleInUse := true }
      else st1

/-- Embedding of `SetGlobalSensorFlags` (functions.go): reject an empty device
list, fold the device pass over the globals, then OR in the Ryzen signal from
the CPU identification file when that file is readable, non-empty and contains
`"Ryzen"`. -/
def SetGlobalSensorFlags (dirs : List Device) (cpuinfo : Option String)
    (st : GlobalState) : GlobalState × Option String :=
  if dirs = [] then (st, some "SetGlobalSensorFlags(): invalid input")
  else
    let st1 := dirs.foldl deviceStep st
    match cpuinfo with
    | none => (st1, none)
    | some s =>
      if s.length = 0 then (st1, none)
      else if containsSub s.data "Ryzen".data then
        ({ st1 with digitalAmdPowerModuleInUse := true }, none)
      else (st1, none)

/-- The flag value after a full run of `SetGlobalSensorFlags` from the
initial globals. -/
def flagOf (devs : List Device) (cpuinfo : Option String) : Bool :=
  ((SetGlobalSensorFlags devs cpuinfo initialState).1).digitalAmdPowerModuleInUse

/-- The normalization applied by `main` to one sensor:
`sensor.intData /= 1000` (Go truncating division) followed by the k10temp
work-around `if sensor.name == "k10temp" && !digitalAmdPowerModuleInUse
{ sensor.intData += 30 }`. -/
def normalizeGo (name : String) (flag : Bool) (v : Int) : Int :=
  let scaled := Int.tdiv v 1000
  if decide (name = "k10temp") && !flag then scaled + 30 else scaled

/-- One line printed by the report loop of `main`: either a reading
(`value = some v`, with the 1-based sensor number) or an `N/A` line
(`value = none`). -/
structure ReportEntry where
  dirName : String
  paddedName : String
  value : Option Int
  number : Nat
deriving DecidableEq

/-- The body of the report loop of `main` for one device: a device whose
`name` file is unreadable or empty is skipped (`continue`, no output); a
device whose `GetSensorData` call fails or returns no sensors produces one
`N/A` line; otherwise each sensor produces one normalized reading line. -/
def processDevice (flag : Bool) (maxLen : Nat) (d : Device) : List ReportEntry :=
  match d.label with
  | none => []
  | some content =>
    if content.length < 1 then []
    else
      let trimmedName := goTrim content
      let res := GetSensorData trimmedName d.dirName d.inputs
      if res.2 ≠ none ∨ res.1.length < 1 then
        [⟨d.dirName, goPad trimmedName (maxLen + 4), none, 0⟩]
      else
        res.1.map (fun s =>
          ⟨d.dirName, goPad s.name (maxLen + 4),
           some (normalizeGo s.name flag s.intData), s.number⟩)

/-- The observable outcome of one run of `main`:
`panicked` models `panic(err)` when `ioutil.ReadDir` on the hardware-monitor
root fails; `flagError` models `fmt.Println(err); os.Exit(1)` after
`SetGlobalSensorFlags` fails; `report` is the sequence of per-device lines. -/
inductive RunOutcome where
  | panicked
  | flagError (msg : String)
  | report (entries : List ReportEntry)
deriving DecidableEq

/-- Embedding of `main` (the report pipeline after flag parsing):
`rootListing` is the result of listing the hardware-monitor root
(`none` = unlistable). -/
def runMain (rootListing : Option (List Device)) (cpuinfo : Option String) :
    RunOutcome :=
  match rootListing with
  | none => .panicked
  | some devs =>
    let res := SetGlobalSensorFlags devs cpuinfo initialState
    match res.2 with
    | some msg => .flagError msg
    | none =>
      .report (devs.flatMap
        (processDevice res.1.digitalAmdPowerModuleInUse res.1.maxEntryLength))

/-- Spec-side description of the per-index read of the read pass, applied
independently per index: the reading at 1-based index `i` is valid exactly
when the file is readable, non-empty, parses as a base-10 integer after
trimming, and the value is positive. -/
def validReading (files : List (Option String)) (i : Nat) : Option Int :=
  match files.getD (i - 1) none with
  | none => none
  | some s =>
    if s.length < 1 then none
    else
      match goAtoi (goTrim s) with
      | none => none
      | some v => if v < 1 then none else some v

/-- The sensor built from index `i` and value `v` during the read pass. -/
def mkSensor (name hwmon : String) (count i : Nat) (v : Int) : Sensor :=
  { name := name, path := mkPath hwmon i, category := tempPre,
    intData := v, number := i, count := count }

/-- Whether one device contributes the quirk flag during the device pass:
its label file is readable and non-empty, and its trimmed content equals
`"fam15h_power"`. -/
def labelMatches (d : Device) : Bool :=
  match d.label with
  | none => false
  | some c => if c.length < 1 then false else decide (goTrim c = "fam15h_power")

/-! ## Helper lemmas -/

/-- Every index strictly below the probed count has a readable, non-empty file
(0-based form). -/
theorem probe_good (files : List (Option String)) :
    ∀ j, j < probeCount files → readableNonEmpty (files.getD j none) = true := by
  induction files with
  | nil => intro j h; simp [probeCount] at h
  | cons f rest ih =>
    intro j h
    simp only [probeCount] at h
    by_cases hf : readableNonEmpty f = true
    · rw [if_pos hf] at h
      cases j with
      | zero => simpa [List.getD] using hf
      | succ k =>
        simpa [List.getD] using ih k (Nat.lt_of_succ_lt_succ h)
    · rw [if_neg hf] at h
      exact absurd h (Nat.not_lt_zero j)

/-- The file right after the probed count is missing or empty (0-based form). -/
theorem probe_stop (files : List (Option String)) :
    readableNonEmpty (files.getD (probeCount files) none) = false := by
  induction files with
  | nil => simp [List.getD, readableNonEmpty]
  | cons f rest ih =>
    simp only [probeCount]
    by_cases hf : readableNonEmpty f = true
    · rw [if_pos hf]; simpa [List.getD] using ih
    · rw [if_neg hf]
      simpa [List.getD] using Bool.eq_false_iff.mpr hf

/-- On a range of indices whose files are all readable and non-empty, the read
pass visits every index and keeps exactly the valid readings: the `break`
branches are unreachable, so the loop is the `filterMap` of the per-index
read over the whole remaining range. -/
theorem readLoop_eq_filterMap (name hwmon : String)
    (files : List (Option String)) (count : Nat)
    (hgood : ∀ j, j < count → readableNonEmpty (files.getD j none) = true) :
    ∀ remaining i, 1 ≤ i → i + remaining = count + 1 →
      readLoop name hwmon files count remaining i =
        (List.range' i remaining).filterMap
          (fun k => (validReading files k).map (mkSensor name hwmon count k)) := by
  intro remaining
  induction remaining with
  | zero => intro i h1 h2; simp [readLoop]
  | succ rem ih =>
    intro i h1 h2
    have hi : i - 1 < count := by omega
    have hg := hgood (i - 1) hi
    obtain ⟨s, hc⟩ : ∃ s, files.getD (i - 1) none = some s := by
      cases hcc : files.getD (i - 1) none with
      | none => rw [hcc] at hg; simp [readableNonEmpty] at hg
      | some s => exact ⟨s, rfl⟩
    rw [hc] at hg
    have hs : ¬ s.length < 1 := by
      simp only [readableNonEmpty, decide_eq_true_eq] at hg; omega
    rw [readLoop, List.range'_succ, List.filterMap_cons]
    simp only [hc]
    rw [if_neg hs]
    cases hp : goAtoi (goTrim s) with
    | none =>
      have hv : validReading files i = none := by
        simp only [validReading, hc, hp]
        rw [if_neg hs]
      simp only [hv, Option.map_none']
      exact ih (i + 1) (by omega) (by omega)
    | some v =>
      by_cases hlt : v < 1
      · have hv : validReading files i = none := by
          simp only [validReading, hc, hp]
          rw [if_neg hs, if_pos hlt]
        simp only [hv, Option.map_none', if_pos hlt]
        exact ih (i + 1) (by omega) (by omega)
      · have hv : validReading files i = some v := by
          simp only [validReading, hc, hp]
          rw [if_neg hs, if_neg hlt]
        simp only [hv, Option.map_some', if_neg hlt]
        rw [ih (i + 1) (by omega) (by omega)]
        rfl

/-- With valid inputs, the sensor list of `GetSensorData` is the `filterMap`
of the per-index read over the whole range `1..probeCount`. -/
theorem getSensorData_eq_filterMap (name hwmon : String)
    (files : List (Option String)) (hn : name ≠ "") (hh : hwmon ≠ "") :
    (GetSensorData name hwmon files).1 =
      (List.range' 1 (probeCount files)).filterMap
        (fun k => (validReading files k).map
          (mkSensor name hwmon (probeCount files) k)) := by
  have hin : ¬ (name = "" ∨ hwmon = "") := by
    intro h; cases h with
    | inl h => exact hn h
    | inr h => exact hh h
  have hrl := readLoop_eq_filterMap name hwmon files (probeCount files)
    (probe_good files) (probeCount files) 1 (by omega) (by omega)
  simp only [GetSensorData, if_neg hin]
  rw [← hrl]
  split
  · rfl
  · rfl

/-- One device-pass step ORs `labelMatches` into the flag and never clears it. -/
theorem deviceStep_flag (st : GlobalState) (d : Device) :
    (deviceStep st d).digitalAmdPowerModuleInUse =
      (st.digitalAmdPowerModuleInUse || labelMatches d) := by
  unfold deviceStep labelMatches
  cases d.label with
  | none => simp
  | some c =>
    by_cases hl : c.length = 0
    · simp [hl]
    · by_cases hm : goTrim c = "fam15h_power"
      · simp [hl, hm]
      · simp [hl, hm]

/-- The device pass sets the flag exactly when it started true or some device
matches. -/
theorem foldl_flag (devs : List Device) (st : GlobalState) :
    ((devs.foldl deviceStep st).digitalAmdPowerModuleInUse) =
      (st.digitalAmdPowerModuleInUse || devs.any labelMatches) := by
  induction devs generalizing st with
  | nil => simp
  | cons d rest ih =>
    simp only [List.foldl_cons, List.any_cons]
    rw [ih, deviceStep_flag, Bool.or_assoc]

/-- `containsSub` agrees with list-infix containment, the meaning of Go
`strings.Contains`. -/
theorem containsSub_iff (hay needle : List Char) :
    containsSub hay needle = true ↔ needle <:+: hay := by
  induction hay with
  | nil => simp [containsSub, List.isEmpty_iff]
  | cons a t ih =>
    rw [containsSub, Bool.or_eq_true, ih, List.isPrefixOf_iff_prefix,
      List.infix_cons_iff]

/-- A device matches the pass exactly when its label file content trims to
`"fam15h_power"` (readability and non-emptiness follow from that). -/
theorem labelMatches_iff (d : Device) :
    labelMatches d = true ↔ ∃ c, d.label = some c ∧ goTrim c = "fam15h_power" := by
  unfold labelMatches
  cases hd : d.label with
  | none => simp
  | some c =>
    by_cases hl : c.length < 1
    · have hc : c = "" := by
        cases c with
        | mk data =>
          cases data with
          | nil => rfl
          | cons x xs => simp [String.length] at hl
      subst hc
      simp only [if_pos hl]
      constructor
      · intro h; exact absurd h (by simp)
      · rintro ⟨c', hc', ht⟩
        cases hc'
        exact absurd ht (by decide)
    · simp only [if_neg hl, decide_eq_true_eq]
      constructor
      · intro h; exact ⟨c, rfl, h⟩
      · rintro ⟨c', hc', ht⟩; cases hc'; exact ht

/-- The flag computed by a full `SetGlobalSensorFlags` run from the initial
globals is true exactly when some device label trims to `"fam15h_power"`, or
the CPU identification file is readable, non-empty and contains `"Ryzen"`. -/
theorem flagOf_iff (devs : List Device) (cpuinfo : Option String)
    (hne : devs ≠ []) :
    flagOf devs cpuinfo = true ↔
      ((∃ d ∈ devs, ∃ c, d.label = some c ∧ goTrim c = "fam15h_power") ∨
       (∃ s, cpuinfo = some s ∧ s ≠ "" ∧ "Ryzen".data <:+: s.data)) := by
  unfold flagOf SetGlobalSensorFlags
  rw [if_neg hne]
  have hdev : ((devs.foldl deviceStep initialState).digitalAmdPowerModuleInUse)
      = devs.any labelMatches := by
    rw [foldl_flag]; rfl
  have hany : devs.any labelMatches = true ↔
      (∃ d ∈ devs, ∃ c, d.label = some c ∧ goTrim c = "fam15h_power") := by
    rw [List.any_eq_true]
    constructor
    · rintro ⟨d, hd, hm⟩; exact ⟨d, hd, (labelMatches_iff d).mp hm⟩
    · rintro ⟨d, hd, hm⟩; exact ⟨d, hd, (labelMatches_iff d).mpr hm⟩
  cases cpuinfo with
  | none =>
    simp only [hdev, hany]
    constructor
    · intro h; exact Or.inl h
    · rintro (h | ⟨s, hs, _⟩)
      · exact h
      · cases hs
  | some s =>
    by_cases hz : s.length = 0
    · have hs0 : s = "" := by
        cases s with
        | mk data =>
          cases data with
          | nil => rfl
          | cons x xs => simp [String.length] at hz
      subst hs0
      simp only [if_pos hz, hdev, hany]
      constructor
      · intro h; exact Or.inl h
      · rintro (h | ⟨s', hs', hne', _⟩)
        · exact h
        · cases hs'; exact absurd rfl hne'
    · simp only [if_neg hz]
      by_cases hr : containsSub s.data "Ryzen".data = true
      · simp only [if_pos hr]
        have hsne : s ≠ "" := by
          intro h0; subst h0; exact absurd hr (by decide)
        have hinf := (containsSub_iff s.data "Ryzen".data).mp hr
        constructor
        · intro _; exact Or.inr ⟨s, rfl, hsne, hinf⟩
        · intro _; trivial
      · rw [if_neg (by simpa using hr)]
        simp only [hdev, hany]
        constructor
        · intro h; exact Or.inl h
        · rintro (h | ⟨s', hs', _, hinf⟩)
          · exact h
          · cases hs'
            exact absurd ((containsSub_iff s.data "Ryzen".data).mpr hinf) hr

/-- Error component of `SetGlobalSensorFlags`: an error exactly on an empty
device list, never from the CPU-info stage. -/
theorem setFlags_error (devs : List Device) (cpuinfo : Option String)
    (st : GlobalState) :
    (SetGlobalSensorFlags devs cpuinfo st).2 =
      if devs = [] then some "SetGlobalSensorFlags(): invalid input" else none := by
  by_cases hne : devs = []
  · rw [if_pos hne]
    simp only [SetGlobalSensorFlags, if_pos hne]
  · rw [if_neg hne]
    simp only [SetGlobalSensorFlags, if_neg hne]
    cases cpuinfo with
    | none => rfl
    | some s =>
      by_cases hz : s.length = 0
      · simp only [if_pos hz]
      · simp only [if_neg hz]
        by_cases hr : containsSub s.data "Ryzen".data = true
        · simp [hr]
        · have hr' : containsSub s.data "Ryzen".data = false :=
            Bool.eq_false_iff.mpr hr
          simp [hr']

/-- Every sensor produced by the read pass over `l` keeps `number` fields
matching the surviving indices of `l`, so projecting `number` is a filter. -/
theorem map_number_filterMap (name hwmon : String)
    (files : List (Option String)) (count : Nat) (l : List Nat) :
    ((l.filterMap (fun k => (validReading files k).map
        (mkSensor name hwmon count k))).map (·.number))
      = l.filter (fun k => (validReading files k).isSome) := by
  induction l with
  | nil => rfl
  | cons i t ih =>
    cases hv : validReading files i with
    | none => simp [List.filterMap_cons, List.filter_cons, hv, ih]
    | some v => simp [List.filterMap_cons, List.filter_cons, hv, ih, mkSensor]

/-! ## Claims -/

/-- Claim C1: for every sensor reading that reaches normalization, with raw
integer value R and device label L, the normalized value is R divided by 1000
with Go's truncating integer division, except that when L equals `"k10temp"`
and the alternate-power-module flag is false the normalized value is
R/1000 + 30; no other label or flag combination changes the scaled value. -/
theorem normalizeGo_rule (L : String) (flag : Bool) (R : Int) :
    normalizeGo L flag R =
      if L = "k10temp" ∧ flag = false then Int.tdiv R 1000 + 30
      else Int.tdiv R 1000 := by
  unfold normalizeGo
  by_cases hL : L = "k10temp"
  · cases flag <;> simp [hL]
  · cases flag <;> simp [hL]

/-- Claim C2: after the quirk-detection pass over a non-empty device list, the
alternate-power-module flag is true exactly when some device's trimmed label
file content equals `"fam15h_power"`, or the CPU identification file is
readable, non-empty and contains the case-sensitive substring `"Ryzen"`;
unreadable or empty label files contribute nothing and no other condition sets
the flag. -/
theorem quirk_flag_iff (devs : List Device) (cpuinfo : Option String)
    (hne : devs ≠ []) :
    flagOf devs cpuinfo = true ↔
      ((∃ d ∈ devs, ∃ c, d.label = some c ∧ goTrim c = "fam15h_power") ∨
       (∃ s, cpuinfo = some s ∧ s ≠ "" ∧ "Ryzen".data <:+: s.data)) :=
  flagOf_iff devs cpuinfo hne

/-- Witness for C2: a device labelled `" fam15h_power\n"` sets the flag, and so
does a Ryzen marker in the CPU identification file. -/
theorem quirk_flag_iff_witness :
    flagOf [⟨"hwmon0", some " fam15h_power\n", []⟩] none = true ∧
    flagOf [⟨"hwmon3", some "coretemp\n", []⟩] (some "AMD Ryzen 7 5800X") = true := by
  constructor
  · exact (quirk_flag_iff [⟨"hwmon0", some " fam15h_power\n", []⟩] none
      (by decide)).mpr
      (Or.inl ⟨⟨"hwmon0", some " fam15h_power\n", []⟩, by decide,
        " fam15h_power\n", rfl, by decide⟩)
  · exact (quirk_flag_iff [⟨"hwmon3", some "coretemp\n", []⟩]
      (some "AMD Ryzen 7 5800X") (by decide)).mpr
      (Or.inr ⟨"AMD Ryzen 7 5800X", rfl, by decide,
        (containsSub_iff "AMD Ryzen 7 5800X".data "Ryzen".data).mp (by decide)⟩)

/-- Claim C3: the discovery probe's count is the largest N such that every
index 1..N has a readable, non-empty input file: all in-range indices are
good, and any N all of whose indices are good is at most the count. -/
theorem probeCount_greatest (files : List (Option String)) :
    (∀ i, 1 ≤ i → i ≤ probeCount files →
        readableNonEmpty (files.getD (i - 1) none) = true) ∧
    (∀ N, (∀ i, 1 ≤ i → i ≤ N →
        readableNonEmpty (files.getD (i - 1) none) = true) →
      N ≤ probeCount files) := by
  constructor
  · intro i h1 h2
    exact probe_good files (i - 1) (by omega)
  · intro N hN
    by_contra hlt
    push_neg at hlt
    have hbad := hN (probeCount files + 1) (by omega) (by omega)
    rw [Nat.add_sub_cancel] at hbad
    rw [probe_stop files] at hbad
    exact absurd hbad (by decide)

/-- Witness for C3: on two good files, index 1 is good and the count is at
least 2. -/
theorem probeCount_greatest_witness :
    readableNonEmpty ([some "100", some "200"].getD 0 none) = true ∧
    2 ≤ probeCount [some "100", some "200"] := by
  have h := probeCount_greatest [some "100", some "200"]
  constructor
  · exact h.1 1 (by decide) (by decide)
  · exact h.2 2 (fun i h1 h2 => by interval_cases i <;> decide)

/-- Claim C4: with valid inputs, the read pass of `GetSensorData` visits every
index 1..totalForCategory, excluding exactly the indices whose reading is
unreadable, empty, non-parsing or non-positive; there is no early termination,
so the result is the `filterMap` of the per-index read over the whole range. -/
theorem read_pass_no_early_termination (name hwmon : String)
    (files : List (Option String)) (hn : name ≠ "") (hh : hwmon ≠ "") :
    (GetSensorData name hwmon files).1 =
      (List.range' 1 (probeCount files)).filterMap
        (fun k => (validReading files k).map
          (mkSensor name hwmon (probeCount files) k)) :=
  getSensorData_eq_filterMap name hwmon files hn hh

/-- Witness for C4: a non-parsing index 2 and a non-positive index 3 are
skipped while index 4 is still read. -/
theorem read_pass_no_early_termination_witness :
    (GetSensorData "coretemp" "hwmon0"
        [some "2000", some "abc", some "-5", some "3000"]).1 =
      [mkSensor "coretemp" "hwmon0" 4 1 2000,
       mkSensor "coretemp" "hwmon0" 4 4 3000] := by
  rw [read_pass_no_early_termination "coretemp" "hwmon0"
    [some "2000", some "abc", some "-5", some "3000"] (by decide) (by decide)]
  decide
/-- Claim C5: whenever some device anywhere in the enumeration has a label
trimming to `"fam15h_power"`, the flag — computed over the whole list before
any normalization — is true for every reordering of the list, and every
normalization (in particular of a `"k10temp"` reading) is then plain raw/1000
with no +30 offset. -/
theorem k10temp_order_independent (devs devs' : List Device)
    (cpuinfo : Option String)
    (hfam : ∃ d ∈ devs, ∃ c, d.label = some c ∧ goTrim c = "fam15h_power")
    (hperm : devs.Perm devs') :
    flagOf devs' cpuinfo = true ∧
      ∀ (L : String) (R : Int),
        normalizeGo L (flagOf devs' cpuinfo) R = Int.tdiv R 1000 := by
  have hfam' : ∃ d ∈ devs', ∃ c, d.label = some c ∧ goTrim c = "fam15h_power" := by
    obtain ⟨d, hd, hc⟩ := hfam
    exact ⟨d, hperm.mem_iff.mp hd, hc⟩
  have hne' : devs' ≠ [] := by
    obtain ⟨d, hd, _⟩ := hfam'
    intro h0
    subst h0
    exact absurd hd (List.not_mem_nil d)
  have hflag : flagOf devs' cpuinfo = true :=
    (flagOf_iff devs' cpuinfo hne').mpr (Or.inl hfam')
  refine ⟨hflag, ?_⟩
  intro L R
  rw [hflag]
  unfold normalizeGo
  simp

/-- Witness for C5: the spec scenario — `fam15h_power` on one device,
`k10temp` reading 50000 on another, with the `fam15h_power` device enumerated
after the `k10temp` device — yields 50, not 80. -/
theorem k10temp_order_independent_witness :
    flagOf [⟨"hwmon2", some "k10temp\n", [some "50000"]⟩,
            ⟨"hwmon1", some "fam15h_power\n", []⟩] none = true ∧
    normalizeGo "k10temp"
      (flagOf [⟨"hwmon2", some "k10temp\n", [some "50000"]⟩,
               ⟨"hwmon1", some "fam15h_power\n", []⟩] none) 50000 = 50 := by
  have h := k10temp_order_independent
    [⟨"hwmon1", some "fam15h_power\n", []⟩,
     ⟨"hwmon2", some "k10temp\n", [some "50000"]⟩]
    [⟨"hwmon2", some "k10temp\n", [some "50000"]⟩,
     ⟨"hwmon1", some "fam15h_power\n", []⟩]
    none
    ⟨⟨"hwmon1", some "fam15h_power\n", []⟩, by decide, "fam15h_power\n", rfl,
      by decide⟩
    (by decide)
  refine ⟨h.1, ?_⟩
  rw [h.2 "k10temp" 50000]
  decide

/-- Claim C6: `GetSensorData` errors exactly when it produced zero sensors;
with valid inputs the zero-readings error is the explicit no-valid-sensors
condition; and the caller turns it into one `N/A` line for the device while
the remaining devices are still processed. -/
theorem no_valid_sensors_recoverable (name hwmon : String)
    (files : List (Option String)) :
    ((GetSensorData name hwmon files).2 ≠ none ↔
        (GetSensorData name hwmon files).1 = []) ∧
    (name ≠ "" → hwmon ≠ "" → (GetSensorData name hwmon files).1 = [] →
      (GetSensorData name hwmon files).2 =
        some "GetSensorData(): no valid sensors") ∧
    (∀ (flag : Bool) (maxLen : Nat) (pre post : List Device) (d : Device)
        (c : String), d.label = some c → 1 ≤ c.length →
      (GetSensorData (goTrim c) d.dirName d.inputs).1 = [] →
      (pre ++ d :: post).flatMap (processDevice flag maxLen) =
        pre.flatMap (processDevice flag maxLen) ++
          ⟨d.dirName, goPad (goTrim c) (maxLen + 4), none, 0⟩ ::
            post.flatMap (processDevice flag maxLen)) := by
  refine ⟨?_, ?_, ?_⟩
  · simp only [GetSensorData]
    by_cases hin : name = "" ∨ hwmon = ""
    · simp [hin]
    · simp only [if_neg hin]
      by_cases he :
          readLoop name hwmon files (probeCount files) (probeCount files) 1 = []
      · simp [he]
      · simp [he]
  · intro hn hh h1
    have hin : ¬ (name = "" ∨ hwmon = "") := by
      intro h
      cases h with
      | inl h => exact hn h
      | inr h => exact hh h
    simp only [GetSensorData, if_neg hin] at h1 ⊢
    by_cases he :
        readLoop name hwmon files (probeCount files) (probeCount files) 1 = []
    · simp [he]
    · rw [if_neg he] at h1
      exact absurd h1 he
  · intro flag maxLen pre post d c hd hlen hempty
    rw [List.flatMap_append, List.flatMap_cons]
    have hna : processDevice flag maxLen d =
        [⟨d.dirName, goPad (goTrim c) (maxLen + 4), none, 0⟩] := by
      have hl : ¬ c.length < 1 := by omega
      simp only [processDevice, hd]
      rw [if_neg hl]
      have hcond : (GetSensorData (goTrim c) d.dirName d.inputs).2 ≠ none ∨
          (GetSensorData (goTrim c) d.dirName d.inputs).1.length < 1 := by
        right
        rw [hempty]
        decide
      rw [if_pos hcond]
    rw [hna]
    simp

/-- Witness for C6: a device whose single input file is non-numeric yields the
no-valid-sensors error, and in a two-device run it is printed as one `N/A`
line while the next device still produces its reading. -/
theorem no_valid_sensors_recoverable_witness :
    ((GetSensorData "radeon" "hwmon0" [some "abc"]).2 ≠ none ↔
        (GetSensorData "radeon" "hwmon0" [some "abc"]).1 = []) ∧
    (GetSensorData "radeon" "hwmon0" [some "abc"]).2 =
      some "GetSensorData(): no valid sensors" ∧
    (([] ++ Device.mk "hwmon0" (some "radeon\n") [some "abc"] ::
        [Device.mk "hwmon1" (some "coretemp\n") [some "45000"]]).flatMap
          (processDevice false 8) =
      ([] : List Device).flatMap (processDevice false 8) ++
        ReportEntry.mk "hwmon0" (goPad (goTrim "radeon\n") 12) none 0 ::
          [Device.mk "hwmon1" (some "coretemp\n") [some "45000"]].flatMap
            (processDevice false 8)) := by
  have h := no_valid_sensors_recoverable "radeon" "hwmon0" [some "abc"]
  refine ⟨h.1, h.2.1 (by decide) (by decide) (by decide), ?_⟩
  exact h.2.2 false 8 [] [Device.mk "hwmon1" (some "coretemp\n") [some "45000"]]
    (Device.mk "hwmon0" (some "radeon\n") [some "abc"]) "radeon\n" rfl
    (by decide) (by decide)

/-- Counterexample to claim C7: in a run where device `hwmon0` has no readable
label file, the report lists only `hwmon1`; the enumerated device `hwmon0` is
silently omitted, with no `N/A` line. -/
theorem every_device_reported_counterexample :
    runMain (some [⟨"hwmon0", none, []⟩,
                   ⟨"hwmon1", some "coretemp\n", [some "45000\n"]⟩]) none =
      .report [⟨"hwmon1", "coretemp    ", some 45, 1⟩] ∧
    "hwmon0" ∉ [ReportEntry.mk "hwmon1" "coretemp    " (some 45) 1].map
      ReportEntry.dirName := by
  decide

/-- Claim C7 as amended: a device whose label file is readable and non-empty
always appears in the report — with an `N/A` line when it has no valid sensor
data — while a device whose label file is unreadable or empty is skipped and
produces no report line at all. -/
theorem every_labelled_device_reported (flag : Bool) (maxLen : Nat)
    (d : Device) :
    (d.label = none → processDevice flag maxLen d = []) ∧
    (∀ c, d.label = some c → c.length = 0 →
      processDevice flag maxLen d = []) ∧
    (∀ c, d.label = some c → 1 ≤ c.length →
      (1 ≤ (processDevice flag maxLen d).length ∧
       (∀ e ∈ processDevice flag maxLen d, e.dirName = d.dirName) ∧
       ((GetSensorData (goTrim c) d.dirName d.inputs).1 = [] →
         processDevice flag maxLen d =
           [⟨d.dirName, goPad (goTrim c) (maxLen + 4), none, 0⟩]))) := by
  refine ⟨?_, ?_, ?_⟩
  · intro h0
    simp [processDevice, h0]
  · intro c hc h0
    simp [processDevice, hc, h0]
  · intro c hc hlen
    have hl : ¬ c.length < 1 := by omega
    simp only [processDevice, hc]
    rw [if_neg hl]
    by_cases hcond : (GetSensorData (goTrim c) d.dirName d.inputs).2 ≠ none ∨
        (GetSensorData (goTrim c) d.dirName d.inputs).1.length < 1
    · rw [if_pos hcond]
      refine ⟨?_, ?_, ?_⟩
      · simp
      · intro e he
        rw [List.mem_singleton] at he
        subst he
        rfl
      · intro _
        rfl
    · rw [if_neg hcond]
      push_neg at hcond
      refine ⟨?_, ?_, ?_⟩
      · rw [List.length_map]
        omega
      · intro e he
        rw [List.mem_map] at he
        obtain ⟨s, _, hs⟩ := he
        subst hs
        rfl
      · intro h0
        rw [h0] at hcond
        simp at hcond

/-- Witness for the amended C7: a labelled device with no input files gets
exactly one `N/A` line. -/
theorem every_labelled_device_reported_witness :
    processDevice false 8 ⟨"hwmon2", some "k10temp\n", []⟩ =
      [⟨"hwmon2", "k10temp     ", none, 0⟩] := by
  have h := (every_labelled_device_reported false 8
    ⟨"hwmon2", some "k10temp\n", []⟩).2.2 "k10temp\n" rfl (by decide)
  exact h.2.2 (by decide)

/-- Claim C8: an unlistable hardware-monitor root aborts the run before any
device is processed, and for a listable, non-empty root no filesystem content
(label or input files, CPU file) can abort the run: the outcome is always a
report. -/
theorem root_unlistable_fatal (cpuinfo : Option String) :
    runMain none cpuinfo = .panicked ∧
    ∀ devs : List Device, devs ≠ [] →
      ∃ entries, runMain (some devs) cpuinfo = .report entries := by
  constructor
  · rfl
  · intro devs hne
    have h2 := setFlags_error devs cpuinfo initialState
    rw [if_neg hne] at h2
    refine ⟨devs.flatMap (processDevice
      (SetGlobalSensorFlags devs cpuinfo
        initialState).1.digitalAmdPowerModuleInUse
      (SetGlobalSensorFlags devs cpuinfo initialState).1.maxEntryLength), ?_⟩
    simp only [runMain, h2]

/-- Witness for C8: a one-device root with every per-device file unreadable
still produces a report outcome. -/
theorem root_unlistable_fatal_witness :
    runMain none none = .panicked ∧
    ∃ entries,
      runMain (some [Device.mk "hwmon0" none []]) none = .report entries := by
  have h := root_unlistable_fatal none
  exact ⟨h.1, h.2 [Device.mk "hwmon0" none []] (by decide)⟩

/-- Claim C9: every sensor returned by `GetSensorData` has
`1 ≤ number ≤ count`, every record's `count` equals the probe's
`totalForCategory`, and the numbers are strictly increasing in result
order. -/
theorem sensor_record_invariants (name hwmon : String)
    (files : List (Option String)) :
    (∀ s ∈ (GetSensorData name hwmon files).1,
        1 ≤ s.number ∧ s.number ≤ s.count ∧ s.count = probeCount files) ∧
    List.Pairwise (· < ·)
      (((GetSensorData name hwmon files).1).map (·.number)) := by
  by_cases hin : name = "" ∨ hwmon = ""
  · have h1 : (GetSensorData name hwmon files).1 = [] := by
      simp [GetSensorData, hin]
    rw [h1]
    exact ⟨fun s hs => absurd hs (List.not_mem_nil s), List.Pairwise.nil⟩
  · push_neg at hin
    rw [getSensorData_eq_filterMap name hwmon files hin.1 hin.2]
    constructor
    · intro s hs
      rw [List.mem_filterMap] at hs
      obtain ⟨i, hi, hf⟩ := hs
      rw [List.mem_range'_1] at hi
      cases hv : validReading files i with
      | none => rw [hv] at hf; exact absurd hf (by simp)
      | some v =>
        rw [hv] at hf
        simp only [Option.map_some', Option.some.injEq] at hf
        subst hf
        refine ⟨hi.1, ?_, rfl⟩
        simp only [mkSensor]
        omega
    · rw [map_number_filterMap]
      exact List.Pairwise.sublist (List.filter_sublist _)
        (List.pairwise_lt_range' 1 (probeCount files))

/-- Witness for C9: a concrete device with a skipped middle index satisfies
the invariants, with the record at index 3 carrying `count = 3`. -/
theorem sensor_record_invariants_witness :
    (1 ≤ (mkSensor "x" "hw" 3 3 2500).number ∧
     (mkSensor "x" "hw" 3 3 2500).number ≤ (mkSensor "x" "hw" 3 3 2500).count ∧
     (mkSensor "x" "hw" 3 3 2500).count =
       probeCount [some "1500", some "abc", some "2500"]) ∧
    List.Pairwise (· < ·)
      (((GetSensorData "x" "hw"
          [some "1500", some "abc", some "2500"]).1).map (·.number)) := by
  have h := sensor_record_invariants "x" "hw" [some "1500", some "abc", some "2500"]
  exact ⟨h.1 (mkSensor "x" "hw" 3 3 2500) (by decide), h.2⟩

/-- Claim C10: an empty-but-listable hardware-monitor root makes
`SetGlobalSensorFlags` return the invalid-input error without consulting the
CPU identification file (the result is the same for every `cpuinfo`), and the
run ends in the exit-1 outcome with no report. -/
theorem empty_listing_fatal (cpuinfo : Option String) :
    SetGlobalSensorFlags [] cpuinfo initialState =
      (initialState, some "SetGlobalSensorFlags(): invalid input") ∧
    runMain (some []) cpuinfo =
      .flagError "SetGlobalSensorFlags(): invalid input" := by
  constructor
  · rfl
  · rfl

example : goAtoi "45000" = some 45000 := by decide
example : goAtoi "-5" = some (-5) := by decide
example : goAtoi "abc" = none := by decide
example : goAtoi "" = none := by decide
example : goAtoi "+" = none := by decide
example : Int.tdiv 45000 1000 = 45 := by decide
example : Int.tdiv (-7) 2 = -3 := by decide
example : probeCount [some "1", some "2", none, some "3"] = 2 := by decide
example : probeCount [none] = 0 := by decide
example : containsSub "AMD Ryzen 7".data "Ryzen".data = true := by decide
example : containsSub "GenuineIntel".data "Ryzen".data = false := by decide
example :
    (GetSensorData "x" "hw"
      [some "2000", some "abc", some "-5", some "3000"]).1.map (·.intData)
      = [2000, 3000] := by decide
example :
    runMain (some [⟨"hwmon0", none, []⟩,
                   ⟨"hwmon1", some "coretemp\n", [some "45000\n"]⟩]) none
      = .report [⟨"hwmon1", "coretemp    ", some 45, 1⟩] := by decide

end Tempchk
